import Mathlib

/-!
Verification development for the limber bulk export/import tool.

The definitions below are a shallow embedding of the program's source:
`src/stats.rs` (Counter), `src/remote.rs` (parse_cluster),
`src/command/export.rs` (construct_query and the per-page hit processing),
and `src/command/import.rs` (the line transform, batching and bulk
dispatch loop).  External library boundaries (serde_json values, the url
crate's parser, the elastic client's bulk responses) are embedded as
plain data at their interfaces.
-/

namespace Limber

/-- JSON values, the embedding of serde_json::Value at the interface
boundary.  Numbers are embedded as integers, which covers every value the
program itself constructs. -/
inductive Json where
  | null : Json
  | bool : Bool → Json
  | num : Int → Json
  | str : String → Json
  | arr : List Json → Json
  | obj : List (String × Json) → Json

/-- First-match key lookup in an object's field list, the embedding of
map lookup on a serde_json object (whose keys are unique). -/
def lookupField : List (String × Json) → String → Option Json
  | [], _ => none
  | (k2, v) :: rest, k => if k2 = k then some v else lookupField rest k

/-- Embedding of serde_json Value::get: key lookup on objects, none on
any other value. -/
def Json.getField : Json → String → Option Json
  | Json.obj fs, k => lookupField fs k
  | _, _ => none

/-- Embedding of serde_json Value::as_str. -/
def Json.asStr : Json → Option String
  | Json.str s => some s
  | _ => none

/-- Whether a JSON value is an object. -/
def Json.isObj : Json → Bool
  | Json.obj _ => true
  | _ => false

/-- Boolean success test for an Except value. -/
def excOk {ε α : Type} : Except ε α → Bool
  | Except.ok _ => true
  | Except.error _ => false

/-- Embedding of Rust usize::from_str as used by clap's value_t macro:
an optional leading plus sign, then one or more decimal digits, rejecting
values that overflow a 64-bit usize. -/
def parse_usize (s : String) : Option Nat :=
  let cs := s.toList
  let digits := match cs with
    | '+' :: rest => rest
    | other => other
  if digits.isEmpty then none
  else if digits.all Char.isDigit then
    let v := digits.foldl (fun acc c => acc * 10 + (c.toNat - 48)) 0
    if v < 2 ^ 64 then some v else none
  else none

/-- Import batch size: import.rs line 60, value_t parse with fallback 100. -/
def import_size (s : String) : Nat := (parse_usize s).getD 100

/-- Import concurrency: import.rs line 66, value_t parse with fallback 1. -/
def import_concurrency (s : String) : Nat := (parse_usize s).getD 1

/-- Export concurrency: export.rs line 70, value_t parse with fallback 1. -/
def export_concurrency (s : String) : Nat := (parse_usize s).getD 1

/-- Export page size: export.rs line 189, value_t parse with fallback 100. -/
def export_size (s : String) : Nat := (parse_usize s).getD 100

/-- The progress counter of stats.rs.  Counter::increment adds `amount`
and returns the value after the addition; in this sequential embedding the
returned value and the stored value coincide. -/
abbrev Counter := Nat

/-- Embedding of Counter::increment from stats.rs lines 33-35. -/
def Counter.increment (c : Counter) (amount : Nat) : Counter := c + amount

/-- A parsed URL at the url-crate interface boundary: a scheme, an
optional authority (host with optional port, kept as one string), and the
path (including its leading slash when present). -/
structure Url where
  scheme : String
  hostport : Option String
  path : String

/-- Splits a character list at the first "://" occurrence. -/
def splitScheme : List Char → Option (List Char × List Char)
  | [] => none
  | ':' :: '/' :: '/' :: rest => some ([], rest)
  | c :: rest =>
    match splitScheme rest with
    | none => none
    | some pr => some (c :: pr.1, pr.2)

/-- URL scheme syntax: a letter followed by letters, digits, plus, minus
or dot. -/
def validScheme : List Char → Bool
  | [] => false
  | c :: rest => c.isAlpha && rest.all (fun d => d.isAlphanum || d == '+' || d == '-' || d == '.')

/-- Whether the first list begins with the second. -/
def listStartsWith : List Char → List Char → Bool
  | _, [] => true
  | [], _ :: _ => false
  | c :: cs, d :: ds => c == d && listStartsWith cs ds

/-- Interface model of url::Url::parse for scheme://authority/path
targets: the scheme ends at "://", the authority ends at the first slash,
and an empty authority parses with no host.  Inputs without a "://"
separator or with an ill-formed scheme are parse failures. -/
def Url.parse (s : String) : Option Url :=
  match splitScheme s.toList with
  | none => none
  | some (schemeCs, restCs) =>
    if validScheme schemeCs then
      let hp := restCs.takeWhile (fun c => !(c == '/'))
      let p := restCs.dropWhile (fun c => !(c == '/'))
      some { scheme := String.mk schemeCs,
             hostport := if hp.isEmpty then none else some (String.mk hp),
             path := String.mk p }
    else none

/-- Serialization of a URL, as url::Url::as_str renders it once the path
has been cleared (remote.rs clears the path before rendering, and then
trims trailing slashes, so the two renderings agree there). -/
def Url.render (u : Url) : String :=
  u.scheme ++ "://" ++ u.hostport.getD "" ++ u.path

/-- Removes every leading slash, the embedding of trim_start_matches. -/
def trimStartSlashes (s : String) : String :=
  String.mk (s.toList.dropWhile (fun c => c == '/'))

/-- Removes every trailing slash, the embedding of trim_end_matches. -/
def trimEndSlashes (s : String) : String :=
  String.mk (s.toList.reverse.dropWhile (fun c => c == '/')).reverse

/-- Shallow embedding of parse_cluster from remote.rs lines 34-61.  The
source evaluates `if index.is_empty() { "_all" } else { index }` as a
statement whose value is discarded (remote.rs lines 47-51), so the index
component stays exactly the trimmed path, possibly the empty string. -/
def parse_cluster (target : String) : Except String (String × String) :=
  match Url.parse target with
  | none => Except.error "url parse failure"
  | some url =>
    if !url.hostport.isSome || !listStartsWith url.scheme.toList "http".toList then
      Except.error "Invalid cluster resource provided"
    else
      let index := trimStartSlashes url.path
      let url2 : Url := { url with path := "" }
      Except.ok (trimEndSlashes url2.render, index)

/-- Removes every entry with the given key from an object's field list,
the embedding of serde_json Map::remove (object keys are unique, so
removing all occurrences agrees with removing the single entry). -/
def removeField (k : String) (fs : List (String × Json)) : List (String × Json) :=
  fs.filter (fun e => !(e.1 == k))

/-- Per-hit processing of an export page, export.rs lines 129-136: the
hit is an object; its "sort" and "_score" entries are removed and every
other field is kept as-is before the hit is printed. -/
def processHit (fs : List (String × Json)) : List (String × Json) :=
  removeField "_score" (removeField "sort" fs)

/-- Per-page processing of an export worker, export.rs lines 127-137:
each hit of the page is emitted, stripped of its transient fields, in
arrival order. -/
def processPage (hits : List (List (String × Json))) : List Json :=
  hits.map (fun h => Json.obj (processHit h))

/-- The query body built by construct_query (export.rs lines 187-218)
once the filter string has parsed: the filter, the page size (the raw
size flag parsed with fallback 100), the fixed "_doc" sort, and, only for
worker counts above one, the slice object carrying this worker's id and
the worker count. -/
def build_query (sizeStr : String) (filter : Json) (id max : Nat) : Json :=
  Json.obj
    ([("query", filter),
      ("size", Json.num (export_size sizeStr)),
      ("sort", Json.arr [Json.str "_doc"])] ++
      (if 1 < max then [("slice", Json.obj [("id", Json.num id), ("max", Json.num max)])] else []))

/-- Shallow embedding of construct_query, export.rs lines 187-218.  The
filter argument is the serde parse result of the query flag: the source
propagates a parse failure as the error and otherwise embeds whatever
JSON value parsed, with no further shape check. -/
def construct_query (sizeStr : String) (filter : Option Json) (id max : Nat) :
    Except String Json :=
  match filter with
  | none => Except.error "invalid JSON in query filter"
  | some f => Except.ok (build_query sizeStr f id max)

/-- The queries built by the export run loop, export.rs lines 91-99: one
query per worker id in 0..concurrency. -/
def exportQueries (sizeStr : String) (filter : Json) (concurrency : Nat) : List Json :=
  (List.range concurrency).map (fun idx => build_query sizeStr filter idx concurrency)

/-- One bulk write operation, import.rs lines 131-135: the document body,
the target index, the document id and the document type. -/
structure BulkOp where
  source : Json
  index : String
  id : String
  ty : String

/-- The transform stage of the import pipeline, import.rs lines 116-139.
The argument is the serde parse result of one input line (none for a line
that is not valid JSON).  The write-target index is the fixed index from
the cluster target when present, else the record's own "_index" string;
the record must carry "_id" and "_type" strings; "_source" defaults to
null when absent.  Any missing piece drops the record (filter_map). -/
def transformLine (fixedIndex : Option String) (line : Option Json) : Option BulkOp := do
  let parsed ← line
  let index ←
    match fixedIndex with
    | some i => some i
    | none => (parsed.getField "_index").bind Json.asStr
  let id ← (parsed.getField "_id").bind Json.asStr
  let ty ← (parsed.getField "_type").bind Json.asStr
  some { source := (parsed.getField "_source").getD Json.null, index := index, id := id, ty := ty }

/-- Fuel-indexed chunking helper; the fuel is the input length, which
bounds the number of chunks. -/
def chunksOfAux {α : Type} (n : Nat) : Nat → List α → List (List α)
  | _, [] => []
  | 0, x :: xs => [x :: xs]
  | fuel + 1, x :: xs => (x :: xs).take n :: chunksOfAux n fuel ((x :: xs).drop n)

/-- Embedding of the chunks(size) stream adapter, import.rs line 140:
groups the operation stream into batches of `n`, the final batch possibly
shorter. -/
def chunksOf {α : Type} (n : Nat) (l : List α) : List (List α) :=
  chunksOfAux n l.length l

/-- A cluster wire operation issued by the import pipeline. -/
inductive WireOp where
  | bulk : List BulkOp → WireOp
  | refresh : WireOp

/-- Whether a wire operation is an index refresh. -/
def WireOp.isRefresh : WireOp → Bool
  | WireOp.refresh => true
  | WireOp.bulk _ => false

/-- Number of refresh operations in a wire log. -/
def refreshCount (l : List WireOp) : Nat :=
  (l.filter WireOp.isRefresh).length

/-- One item of a bulk response at the elastic-crate boundary; isErr is
item.is_err() as read by import.rs line 164. -/
structure BulkItem where
  isErr : Bool

/-- A bulk response accepted at the transport level: its per-item
outcomes. -/
structure BulkResponse where
  items : List BulkItem

/-- Embedding of BulkResponse::is_ok of the elastic crate: the response
is ok when every item succeeded. -/
def BulkResponse.is_ok (r : BulkResponse) : Bool :=
  r.items.all (fun i => !i.isErr)

/-- Observable outcome of an import run: the run's result, the final
counter value, the wire operations issued, and the items logged with
"err:" on standard error. -/
structure ImportResult where
  outcome : Except String Unit
  counter : Counter
  wire : List WireOp
  errLog : List BulkItem

/-- The bulk dispatch loop, import.rs lines 142-172: batches are consumed
in order; each one issues one bulk request.  A transport failure aborts
the run with that error.  On an accepted response the counter is
incremented by the configured batch size; if every item succeeded the
loop continues, otherwise the failing items are logged and the run aborts
with the fixed bulk-import error.  `resp` gives the cluster's answer to
the i-th bulk request. -/
def processBatches (size : Nat) (resp : Nat → Except String BulkResponse) :
    List (List BulkOp) → Nat → Counter → List WireOp → List BulkItem → ImportResult
  | [], _, counter, wire, log =>
    { outcome := Except.ok (), counter := counter, wire := wire, errLog := log }
  | ops :: rest, i, counter, wire, log =>
    match resp i with
    | Except.error e =>
      { outcome := Except.error e, counter := counter,
        wire := wire ++ [WireOp.bulk ops], errLog := log }
    | Except.ok r =>
      let counter2 := Counter.increment counter size
      if r.is_ok then
        processBatches size resp rest (i + 1) counter2 (wire ++ [WireOp.bulk ops]) log
      else
        { outcome := Except.error "Received errors in bulk import", counter := counter2,
          wire := wire ++ [WireOp.bulk ops],
          errLog := log ++ r.items.filter (fun it => it.isErr) }

/-- The operation stream of an import run: each input line through the
transform stage, drops included. -/
def importOps (fixedIndex : Option String) (lines : List (Option Json)) : List BulkOp :=
  lines.filterMap (transformLine fixedIndex)

/-- The batches of an import run, import.rs line 140. -/
def importBatches (fixedIndex : Option String) (size : Nat) (lines : List (Option Json)) :
    List (List BulkOp) :=
  chunksOf size (importOps fixedIndex lines)

/-- Whole-run embedding of import.rs run, lines 114-176: transform every
line, batch, then drive the bulk dispatch loop from a zero counter.  The
run ends when the batch stream is exhausted or a batch fails. -/
def runImport (fixedIndex : Option String) (size : Nat) (lines : List (Option Json))
    (resp : Nat → Except String BulkResponse) : ImportResult :=
  processBatches size resp (importBatches fixedIndex size lines) 0 0 [] []

/-- A well-formed input record as the import transform expects it. -/
def demoLine1 : Json :=
  Json.obj [("_id", Json.str "1"), ("_index", Json.str "a"), ("_type", Json.str "_doc"),
    ("_source", Json.obj [("x", Json.num 1)])]

/-- A second well-formed input record. -/
def demoLine2 : Json :=
  Json.obj [("_id", Json.str "2"), ("_index", Json.str "a"), ("_type", Json.str "_doc"),
    ("_source", Json.obj [("x", Json.num 2)])]

/-- A record lacking the "_id" field. -/
def demoLineNoId : Json :=
  Json.obj [("_index", Json.str "a"), ("_type", Json.str "_doc"),
    ("_source", Json.obj [("x", Json.num 3)])]

/-- The first scenario record of the spec, with no "_type" field. -/
def demoLine1NoTy : Json :=
  Json.obj [("_id", Json.str "1"), ("_index", Json.str "a"),
    ("_source", Json.obj [("x", Json.num 1)])]

/-- The second scenario record of the spec, with no "_type" field. -/
def demoLine2NoTy : Json :=
  Json.obj [("_id", Json.str "2"), ("_index", Json.str "a"),
    ("_source", Json.obj [("x", Json.num 2)])]

/-- A cluster that accepts every bulk request with all items succeeding. -/
def demoRespOk : Nat → Except String BulkResponse :=
  fun _ => Except.ok { items := [{ isErr := false }, { isErr := false }] }

/-- A cluster that accepts every bulk request but fails one item. -/
def demoRespItemErr : Nat → Except String BulkResponse :=
  fun _ => Except.ok { items := [{ isErr := true }] }

/-- The bulk operation produced by the transform for demoLine1. -/
def demoOp1 : BulkOp :=
  { source := Json.obj [("x", Json.num 1)], index := "a", id := "1", ty := "_doc" }

/-- The bulk operation produced by the transform for demoLine2. -/
def demoOp2 : BulkOp :=
  { source := Json.obj [("x", Json.num 2)], index := "a", id := "2", ty := "_doc" }

/-- A raw export hit carrying the transient ranking fields. -/
def demoHit : List (String × Json) :=
  [("_id", Json.str "1"), ("sort", Json.arr [Json.num 0]), ("_score", Json.null),
    ("_source", Json.obj [("x", Json.num 1)])]

/-! Helper lemmas about the bulk dispatch loop and field lookup. -/

/-- When every batch in the list gets an accepted, all-items-ok response,
the dispatch loop succeeds, adds the configured size once per batch, logs
nothing, and appends exactly one bulk request per batch. -/
theorem processBatches_all_ok (size : Nat) (resp : Nat → Except String BulkResponse) :
    ∀ (batches : List (List BulkOp)) (start : Nat) (counter : Counter)
      (wire : List WireOp) (log : List BulkItem),
      (∀ j, j < batches.length → ∃ r, resp (start + j) = Except.ok r ∧ r.is_ok = true) →
      processBatches size resp batches start counter wire log =
        { outcome := Except.ok (), counter := counter + size * batches.length,
          wire := wire ++ batches.map WireOp.bulk, errLog := log } := by
  intro batches
  induction batches with
  | nil => intro start counter wire log h; simp [processBatches]
  | cons ops rest ih =>
    intro start counter wire log h
    obtain ⟨r, hr, hok⟩ := h 0 (by simp)
    rw [Nat.add_zero] at hr
    rw [show processBatches size resp (ops :: rest) start counter wire log =
      processBatches size resp rest (start + 1) (Counter.increment counter size)
        (wire ++ [WireOp.bulk ops]) log from by
        simp [processBatches, hr, hok]]
    rw [ih (start + 1) _ _ _ (by
      intro j hj
      have h2 := h (j + 1) (by simpa using Nat.succ_lt_succ hj)
      simpa [Nat.add_assoc, Nat.add_comm 1 j] using h2)]
    simp [Counter.increment, Nat.mul_succ]
    ring

/-- When the first i batches get all-items-ok responses and batch i gets
an accepted response with some failed item, the dispatch loop aborts with
the fixed bulk-import error and logs exactly that response's failed
items. -/
theorem processBatches_abort (size : Nat) (resp : Nat → Except String BulkResponse) :
    ∀ (batches : List (List BulkOp)) (start : Nat) (counter : Counter)
      (wire : List WireOp) (log : List BulkItem) (i : Nat) (r : BulkResponse),
      i < batches.length →
      (∀ j, j < i → ∃ q, resp (start + j) = Except.ok q ∧ q.is_ok = true) →
      resp (start + i) = Except.ok r → r.is_ok = false →
      (processBatches size resp batches start counter wire log).outcome
          = Except.error "Received errors in bulk import" ∧
      (processBatches size resp batches start counter wire log).errLog
          = log ++ r.items.filter (fun it => it.isErr) := by
  intro batches
  induction batches with
  | nil => intro start counter wire log i r hi; simp at hi
  | cons ops rest ih =>
    intro start counter wire log i r hi hprev hresp hbad
    match i with
    | 0 =>
      rw [Nat.add_zero] at hresp
      simp [processBatches, hresp, hbad]
    | i + 1 =>
      obtain ⟨q, hq, hqok⟩ := hprev 0 (by omega)
      rw [Nat.add_zero] at hq
      rw [show processBatches size resp (ops :: rest) start counter wire log =
        processBatches size resp rest (start + 1) (Counter.increment counter size)
          (wire ++ [WireOp.bulk ops]) log from by
          simp [processBatches, hq, hqok]]
      apply ih (start + 1) _ _ _ i r (by simpa using hi)
      · intro j hj
        have h2 := hprev (j + 1) (by omega)
        simpa [Nat.add_assoc, Nat.add_comm 1 j] using h2
      · simpa [Nat.add_assoc, Nat.add_comm 1 i] using hresp
      · exact hbad

/-- The dispatch loop only ever appends bulk requests to the wire log:
the number of refresh operations never changes. -/
theorem processBatches_refreshCount (size : Nat) (resp : Nat → Except String BulkResponse) :
    ∀ (batches : List (List BulkOp)) (start : Nat) (counter : Counter)
      (wire : List WireOp) (log : List BulkItem),
      refreshCount (processBatches size resp batches start counter wire log).wire
        = refreshCount wire := by
  intro batches
  induction batches with
  | nil => intro start counter wire log; simp [processBatches]
  | cons ops rest ih =>
    intro start counter wire log
    simp only [processBatches]
    match hr : resp start with
    | Except.error e => simp [refreshCount, List.filter_append, WireOp.isRefresh]
    | Except.ok r =>
      by_cases hok : r.is_ok
      · simp only [hok, if_true]
        rw [ih]
        simp [refreshCount, List.filter_append, WireOp.isRefresh]
      · simp only [hok, if_false]
        simp [refreshCount, List.filter_append, WireOp.isRefresh]

/-- Looking up the removed key finds nothing. -/
theorem lookup_removeField_self (k : String) :
    ∀ fs : List (String × Json), lookupField (removeField k fs) k = none := by
  intro fs
  induction fs with
  | nil => simp [removeField, lookupField]
  | cons e rest ih =>
    simp only [removeField] at ih ⊢
    by_cases h : e.1 = k
    · simpa [List.filter_cons, beq_iff_eq, h] using ih
    · simpa [List.filter_cons, lookupField, beq_iff_eq, h] using ih

/-- Looking up any other key is unchanged by the removal. -/
theorem lookup_removeField_ne (k k2 : String) (hne : ¬ k2 = k) :
    ∀ fs : List (String × Json), lookupField (removeField k fs) k2 = lookupField fs k2 := by
  intro fs
  induction fs with
  | nil => simp [removeField, lookupField]
  | cons e rest ih =>
    simp only [removeField] at ih ⊢
    by_cases h : e.1 = k
    · have hk2 : ¬ k = k2 := fun hx => hne hx.symm
      simp [List.filter_cons, lookupField, beq_iff_eq, h, hk2, ih]
    · by_cases h3 : e.1 = k2
      · simp [List.filter_cons, lookupField, beq_iff_eq, h, h3, hne]
      · simp [List.filter_cons, lookupField, beq_iff_eq, h, h3, ih]

/-- The built query carries a slice field exactly for worker counts above
one, and then it is this worker's id with the worker count as max. -/
theorem getField_slice_build (sizeStr : String) (f : Json) (i n : Nat) :
    (build_query sizeStr f i n).getField "slice" =
      if 1 < n then some (Json.obj [("id", Json.num i), ("max", Json.num n)]) else none := by
  by_cases h : 1 < n
  · simp [build_query, Json.getField, lookupField, h]
  · simp [build_query, Json.getField, lookupField, h]

/-- The built query's size field is the parsed size flag with its
fallback. -/
theorem getField_size_build (sizeStr : String) (f : Json) (i n : Nat) :
    (build_query sizeStr f i n).getField "size" = some (Json.num (export_size sizeStr)) := by
  by_cases h : 1 < n
  · simp [build_query, Json.getField, lookupField, h]
  · simp [build_query, Json.getField, lookupField, h]

/-! Claim theorems. -/

/-- C1 counterexample: at this concrete input, a batch whose accepted
bulk response contains a failed item aborts the whole run, so the claim
that the run completes successfully fails. -/
theorem c1_counterexample :
    (runImport none 1 [some demoLine1] demoRespItemErr).outcome
        = Except.error "Received errors in bulk import" ∧
    (Except.error "Received errors in bulk import" : Except String Unit) ≠ Except.ok () :=
  ⟨rfl, by simp⟩

/-- C1 (amended): for the first batch whose accepted bulk response
contains a failed item, the failing items are logged with "err:", and the
batch then returns a fatal error that aborts the run. -/
theorem import_item_failures_logged_then_fatal
    (fixedIndex : Option String) (size : Nat) (lines : List (Option Json))
    (resp : Nat → Except String BulkResponse) (i : Nat) (r : BulkResponse)
    (hi : i < (importBatches fixedIndex size lines).length)
    (hprev : ∀ j, j < i → ∃ q, resp j = Except.ok q ∧ q.is_ok = true)
    (hresp : resp i = Except.ok r) (hbad : r.is_ok = false) :
    (runImport fixedIndex size lines resp).outcome
        = Except.error "Received errors in bulk import" ∧
    (runImport fixedIndex size lines resp).errLog
        = r.items.filter (fun it => it.isErr) := by
  have h := processBatches_abort size resp (importBatches fixedIndex size lines) 0 0 [] [] i r hi
    (by intro j hj; simpa using hprev j hj) (by simpa using hresp) hbad
  simpa [runImport] using h

/-- C1 witness: the amended theorem applied to a one-line input whose
single batch response fails its only item. -/
theorem import_item_failures_logged_then_fatal_witness :
    (runImport none 1 [some demoLine1] demoRespItemErr).outcome
        = Except.error "Received errors in bulk import" ∧
    (runImport none 1 [some demoLine1] demoRespItemErr).errLog
        = ({ items := [{ isErr := true }] } : BulkResponse).items.filter (fun it => it.isErr) :=
  import_item_failures_logged_then_fatal none 1 [some demoLine1] demoRespItemErr 0
    { items := [{ isErr := true }] } (by decide)
    (fun j hj => absurd hj (Nat.not_lt_zero j)) rfl rfl

/-- C2 counterexample: a complete, fully successful one-batch import run
at a concrete input issues zero refresh requests, not exactly one. -/
theorem c2_counterexample :
    (runImport none 1 [some demoLine1] demoRespOk).outcome = Except.ok () ∧
    refreshCount (runImport none 1 [some demoLine1] demoRespOk).wire = 0 ∧
    ¬ refreshCount (runImport none 1 [some demoLine1] demoRespOk).wire = 1 :=
  ⟨rfl, rfl, by decide⟩

/-- C2 (amended): the import pipeline never issues a refresh request; the
run simply ends with the outcome of the batch processing. -/
theorem import_no_refresh (fixedIndex : Option String) (size : Nat)
    (lines : List (Option Json)) (resp : Nat → Except String BulkResponse) :
    refreshCount (runImport fixedIndex size lines resp).wire = 0 := by
  have h := processBatches_refreshCount size resp (importBatches fixedIndex size lines) 0 0 [] []
  simpa [runImport, refreshCount] using h

/-- C3 counterexample: with batch size 2, a stream of one well-formed
record and one record missing its identifier yields one batch holding a
single operation, yet the Counter ends at 2 (the configured size),
not 1. -/
theorem c3_counterexample :
    (runImport none 2 [some demoLine1, some demoLineNoId] demoRespOk).wire
        = [WireOp.bulk [demoOp1]] ∧
    (runImport none 2 [some demoLine1, some demoLineNoId] demoRespOk).counter = 2 ∧
    ¬ (runImport none 2 [some demoLine1, some demoLineNoId] demoRespOk).counter = 1 :=
  ⟨rfl, rfl, by decide⟩

/-- C3 (amended): every successfully written batch increments the Counter
by the configured batch size, even when the batch holds fewer operations,
so a fully successful run ends at size times the number of batches;
malformed records still contribute no operations. -/
theorem import_counter_counts_size_per_batch
    (fixedIndex : Option String) (size : Nat) (lines : List (Option Json))
    (resp : Nat → Except String BulkResponse)
    (hall : ∀ j, j < (importBatches fixedIndex size lines).length →
      ∃ r, resp j = Except.ok r ∧ r.is_ok = true) :
    (runImport fixedIndex size lines resp).counter
        = size * (importBatches fixedIndex size lines).length := by
  have h := processBatches_all_ok size resp (importBatches fixedIndex size lines) 0 0 [] []
    (by intro j hj; simpa using hall j hj)
  simp [runImport, h]

/-- C3 witness: the amended theorem applied to the one-good-one-malformed
stream with size 2; the single short batch still adds 2. -/
theorem import_counter_counts_size_per_batch_witness :
    (runImport none 2 [some demoLine1, some demoLineNoId] demoRespOk).counter
        = 2 * (importBatches none 2 [some demoLine1, some demoLineNoId]).length :=
  import_counter_counts_size_per_batch none 2 [some demoLine1, some demoLineNoId] demoRespOk
    (fun _ _ => ⟨{ items := [{ isErr := false }, { isErr := false }] }, rfl, rfl⟩)

/-- C4: for every worker count N at least 1 and every filter, the built
query carries a slice field iff N is above 1, and then the N per-worker
queries carry slice ids exactly covering 0..N-1, each with max = N. -/
theorem export_slice_partition (sizeStr : String) (f : Json) (n : Nat) (hn : 1 ≤ n) :
    (∀ i, i < n → (((build_query sizeStr f i n).getField "slice").isSome = true ↔ 1 < n)) ∧
    (1 < n →
      (exportQueries sizeStr f n).map (fun q => q.getField "slice") =
        (List.range n).map (fun i : Nat =>
          some (Json.obj [("id", Json.num (i : Int)), ("max", Json.num (n : Int))]))) := by
  constructor
  · intro i hi
    rw [getField_slice_build]
    by_cases h : 1 < n
    · simp [h]
    · simp [h]
  · intro h
    unfold exportQueries
    rw [List.map_map]
    apply List.map_congr_left
    intro i hi
    simp [Function.comp, getField_slice_build, h]

/-- C4 witness: the slice partition theorem at worker count 3. -/
theorem export_slice_partition_witness :
    (((build_query "100" (Json.obj [("match_all", Json.obj [])]) 1 3).getField
        "slice").isSome = true ↔ 1 < 3) ∧
    (exportQueries "100" (Json.obj [("match_all", Json.obj [])]) 3).map
        (fun q => q.getField "slice") =
      (List.range 3).map (fun i : Nat =>
        some (Json.obj [("id", Json.num (i : Int)), ("max", Json.num (3 : Int))])) := by
  have h := export_slice_partition "100" (Json.obj [("match_all", Json.obj [])]) 3 (by decide)
  exact ⟨h.1 1 (by decide), h.2 (by decide)⟩

/-- C5: every record emitted for a page is the raw hit with the transient
ranking fields removed: it appears in the emitted page, its "sort" and
"_score" lookups find nothing, and every other field is unchanged. -/
theorem export_emit_strips_transient (page : List (List (String × Json)))
    (h : List (String × Json)) (hmem : h ∈ page) :
    Json.obj (processHit h) ∈ processPage page ∧
    lookupField (processHit h) "sort" = none ∧
    lookupField (processHit h) "_score" = none ∧
    ∀ k, ¬ k = "sort" → ¬ k = "_score" → lookupField (processHit h) k = lookupField h k := by
  refine ⟨List.mem_map_of_mem _ hmem, ?_, ?_, ?_⟩
  · unfold processHit
    rw [lookup_removeField_ne "_score" "sort" (by decide)]
    exact lookup_removeField_self "sort" _
  · exact lookup_removeField_self "_score" _
  · intro k hk1 hk2
    unfold processHit
    rw [lookup_removeField_ne "_score" k hk2, lookup_removeField_ne "sort" k hk1]

/-- C5 witness: the stripping theorem on a concrete one-hit page carrying
both transient fields and an ordinary field. -/
theorem export_emit_strips_transient_witness :
    Json.obj (processHit demoHit) ∈ processPage [demoHit] ∧
    lookupField (processHit demoHit) "sort" = none ∧
    lookupField (processHit demoHit) "_score" = none ∧
    lookupField (processHit demoHit) "_id" = lookupField demoHit "_id" := by
  have h := export_emit_strips_transient [demoHit] demoHit (by simp)
  exact ⟨h.1, h.2.1, h.2.2.1, h.2.2.2 "_id" (by decide) (by decide)⟩

/-- C6: the cluster target parser evaluated at the two inputs of the
claim: the non-empty path becomes the fixed index, but the empty path
yields the empty-string index, because the "_all" defaulting statement in
the source discards its value. -/
theorem parse_cluster_c6_eval :
    parse_cluster "http://host:9200/myindex" = Except.ok ("http://host:9200", "myindex") ∧
    parse_cluster "http://host:9200/" = Except.ok ("http://host:9200", "") :=
  ⟨rfl, rfl⟩

/-- C7 counterexample: a target whose scheme is neither http nor https is
nevertheless accepted, because the source only checks that the scheme
starts with "http". -/
theorem c7_counterexample :
    parse_cluster "httpq://host/idx" = Except.ok ("httpq://host", "idx") ∧
    ¬ "httpq" = "http" ∧ ¬ "httpq" = "https" :=
  ⟨rfl, by decide, by decide⟩

/-- C7 (amended): target parsing fails exactly when the URI does not
parse, has no host, or its scheme does not start with "http" (a string
test, not equality with http/https); the check is a pure function of the
URI, before any network interaction. -/
theorem parse_cluster_reject_iff (s : String) :
    excOk (parse_cluster s) = false ↔
      (Url.parse s = none ∨
        ∃ u, Url.parse s = some u ∧
          (u.hostport.isSome = false ∨
            listStartsWith u.scheme.toList "http".toList = false)) := by
  cases hu : Url.parse s with
  | none => simp [parse_cluster, hu, excOk]
  | some u =>
    unfold parse_cluster
    rw [hu]
    cases hhp : u.hostport with
    | none => simp [excOk, hhp]
    | some a =>
      cases hls : listStartsWith u.scheme.toList "http".toList with
      | false =>
        have hls2 : listStartsWith u.scheme.data ['h', 't', 't', 'p'] = false := hls
        simp [excOk, hhp, hls2]
      | true =>
        have hls2 : listStartsWith u.scheme.data ['h', 't', 't', 'p'] = true := hls
        simp [excOk, hhp, hls2]

/-- C8 counterexample: a filter that parses as the JSON number 5 (not an
object) is accepted by the query builder, so the claim that non-object
filters fail is false. -/
theorem c8_counterexample :
    construct_query "100" (some (Json.num 5)) 0 1
        = Except.ok (build_query "100" (Json.num 5) 0 1) ∧
    (Json.num 5).isObj = false :=
  ⟨rfl, rfl⟩

/-- C8 (amended): query construction fails exactly when the filter string
is not valid JSON; every parsed JSON value, object or not, is accepted
and embedded as the query. -/
theorem construct_query_parse_only (sizeStr : String) (id max : Nat) :
    (∀ f : Json, construct_query sizeStr (some f) id max
        = Except.ok (build_query sizeStr f id max)) ∧
    construct_query sizeStr none id max = Except.error "invalid JSON in query filter" :=
  ⟨fun _ => rfl, rfl⟩

/-- C9 counterexample: the two scenario input lines carry no "_type"
field, so the transform drops both; no bulk request is issued and the
Counter ends at 0, not 2. -/
theorem c9_counterexample :
    (runImport none 2 [some demoLine1NoTy, some demoLine2NoTy] demoRespOk).wire = [] ∧
    (runImport none 2 [some demoLine1NoTy, some demoLine2NoTy] demoRespOk).counter = 0 ∧
    ¬ (runImport none 2 [some demoLine1NoTy, some demoLine2NoTy] demoRespOk).counter = 2 :=
  ⟨rfl, rfl, by decide⟩

/-- C9 (amended): with a "_type" field added to each record, the same
two-line stream at batch size 2 issues exactly one bulk request carrying
both operations, completes successfully, and leaves the Counter at 2. -/
theorem import_two_typed_lines_one_bulk :
    runImport none 2 [some demoLine1, some demoLine2] demoRespOk =
      { outcome := Except.ok (), counter := 2,
        wire := [WireOp.bulk [demoOp1, demoOp2]], errLog := [] } :=
  rfl

/-- C10: a size or concurrency flag that does not parse as an unsigned
integer is silently replaced by its default (size 100, concurrency 1) in
both commands; no error is raised. -/
theorem numeric_flag_fallback (s : String) (h : parse_usize s = none) :
    import_size s = 100 ∧ import_concurrency s = 1 ∧ export_concurrency s = 1 ∧
    export_size s = 100 ∧
    ∀ (f : Json) (i n : Nat), (build_query s f i n).getField "size"
        = some (Json.num 100) := by
  refine ⟨by simp [import_size, h], by simp [import_concurrency, h],
    by simp [export_concurrency, h], by simp [export_size, h], ?_⟩
  intro f i n
  rw [getField_size_build]
  simp [export_size, h]

/-- C10 witness: the fallback theorem at the non-numeric flag "abc". -/
theorem numeric_flag_fallback_witness :
    parse_usize "abc" = none ∧ import_size "abc" = 100 ∧ import_concurrency "abc" = 1 ∧
    export_concurrency "abc" = 1 ∧ export_size "abc" = 100 ∧
    (build_query "abc" (Json.obj []) 0 1).getField "size" = some (Json.num 100) := by
  have h := numeric_flag_fallback "abc" rfl
  exact ⟨rfl, h.1, h.2.1, h.2.2.1, h.2.2.2.1, h.2.2.2.2 (Json.obj []) 0 1⟩

end Limber
